import Mathlib

/-!
Verification development for the NanoparticleAtomCounter repository.

The repository ships two source files: `app.py` (a Streamlit front end that
invokes the counting engine `nanoparticleatomcounting.atom_count`) and
`atomcounter_benchmark/plot-parity.py` (a comparison/plotting utility).
The counting engine itself is imported from a package whose code is not in
the excerpt, so the engine, its density catalog, geometry resolver and row
pipeline are modelled here from the specification; the two shipped files
are embedded from their source.
-/

namespace NPAC

/-! ## Counting core (modelled from the spec) -/

/-- Modelled from the spec: the per-row error kinds of the counting core
(the engine code is not in the excerpt; only its error taxonomy is
specified). -/
inductive CountError where
  | UnknownElement
  | UnknownFacet
  | MissingSizeParameter
  | InvalidGeometry
deriving DecidableEq

/-- Modelled from the spec: the two selectable counting modes. -/
inductive Mode where
  | volume
  | area
deriving DecidableEq

/-- Modelled from the spec: the rounding policy of the Counting Engine —
round-half-up from the continuous geometric estimate. -/
noncomputable def roundHalfUp (x : ℝ) : ℤ := ⌊x + 1 / 2⌋

/-- Modelled from the spec: bulk entries of the Density Catalog, keyed by
element symbol; the value is the atomic volume (Å³ per atom) used by the
volume-mode total.  The elements are the ones the repository's sample
input exercises (Ag, Pd, Cu); the numeric constants are placeholders with
the right magnitudes, since the spec records the exact tables as not
recoverable.  Static, immutable data. -/
def bulkAtomicVolume (e : String) : Option ℚ :=
  if e = "Ag" then some (1711 / 100)
  else if e = "Pd" then some (1472 / 100)
  else if e = "Cu" then some (1181 / 100)
  else none

/-- Modelled from the spec: facet entries of the Density Catalog — areal
(planar) packing, as area per atom (Å² per atom), per element and facet. -/
def arealDensityTable (e f : String) : Option ℚ :=
  if e = "Ag" then
    if f = "100" then some (836 / 100)
    else if f = "110" then some (1183 / 100)
    else if f = "111" then some (724 / 100)
    else none
  else if e = "Pd" then
    if f = "100" then some (757 / 100)
    else if f = "110" then some (1070 / 100)
    else if f = "111" then some (655 / 100)
    else none
  else if e = "Cu" then
    if f = "100" then some (653 / 100)
    else if f = "110" then some (924 / 100)
    else if f = "111" then some (566 / 100)
    else none
  else none

/-- Modelled from the spec: the documented default facet used when a facet
field is left blank — the most commonly exposed low-index facet, which for
the fcc metals of the catalog is (111).  Explicit and enumerable. -/
def defaultFacet (_e : String) : String := "111"

/-- Modelled from the spec: a blank facet field resolves to the element's
documented default facet; a non-blank facet is used as given. -/
def resolveFacet (e f : String) : String :=
  if f = "" then defaultFacet e else f

/-- Modelled from the spec: bulk density lookup; fails with
`UnknownElement` when the element has no bulk entry. -/
def lookup_bulk_density (e : String) : Except CountError ℚ :=
  match bulkAtomicVolume e with
  | some v => .ok v
  | none => .error .UnknownElement

/-- Modelled from the spec: areal density lookup; an absent element fails
with `UnknownElement`, a (resolved) facet with no entry for a known
element fails with `UnknownFacet`. -/
def lookup_areal_density (e f : String) : Except CountError ℚ :=
  match bulkAtomicVolume e with
  | none => .error .UnknownElement
  | some _ =>
    match arealDensityTable e (resolveFacet e f) with
    | some a => .ok a
    | none => .error .UnknownFacet

/-- Modelled from the spec: the size parameter resolved for a row, tagged
by which input column supplied it — `small` is the wetted (contact)
radius r, `large` is the radius of curvature R of the underlying sphere. -/
inductive SizeParam where
  | small (r : ℝ)
  | large (R : ℝ)

/-- The numeric value of a resolved size parameter. -/
def SizeParam.val : SizeParam → ℝ
  | .small r => r
  | .large R => R

/-- Modelled from the spec: the radius of the single underlying sphere,
determined by the supplied size parameter and the contact angle via the
standard spherical-cap relation base radius = sphere radius · sin θ (the
relation is the same closed form for the acute and the obtuse branch,
since sin(180° − θ) = sin θ). -/
noncomputable def sphereRadius (sz : SizeParam) (thetaDeg : ℝ) : ℝ :=
  match sz with
  | .small r => r / Real.sin (thetaDeg * Real.pi / 180)
  | .large R => R

/-- Modelled from the spec: the derived spherical-cap geometry of one row. -/
structure Geometry where
  baseRadius : ℝ
  capHeight : ℝ
  curvedArea : ℝ
  basalArea : ℝ
  perimeterLen : ℝ
  capVolume : ℝ

/-- Modelled from the spec: the spherical-cap geometry computed from the
sphere radius and the contact angle (degrees): base radius Rs·sin θ, cap
height Rs·(1 − cos θ), perimeter 2π·base, basal disk area π·base², curved
cap area 2π·Rs·h, cap volume (π/3)·h²·(3Rs − h).  The acute and obtuse
branches are both instances of these closed forms with the
branch-appropriate cap height. -/
noncomputable def capGeometry (Rs thetaDeg : ℝ) : Geometry :=
  let t := thetaDeg * Real.pi / 180
  let a := Rs * Real.sin t
  let h := Rs * (1 - Real.cos t)
  { baseRadius := a
    capHeight := h
    curvedArea := 2 * Real.pi * Rs * h
    basalArea := Real.pi * a ^ 2
    perimeterLen := 2 * Real.pi * a
    capVolume := Real.pi / 3 * h ^ 2 * (3 * Rs - h) }

/-- Modelled from the spec: the Geometry Resolver; fails with
`InvalidGeometry` when θ is outside (0, 180) or the size is ≤ 0. -/
noncomputable def resolve (sz : SizeParam) (thetaDeg : ℝ) :
    Except CountError Geometry :=
  if 0 < sz.val ∧ 0 < thetaDeg ∧ thetaDeg < 180 then
    .ok (capGeometry (sphereRadius sz thetaDeg) thetaDeg)
  else .error .InvalidGeometry

/-- Modelled from the spec: the characteristic atomic spacing along the
contact line — the cube root of the atomic volume. -/
noncomputable def spacingOf (v : ℚ) : ℝ := (v : ℝ) ^ ((1 : ℝ) / 3)

/-- Modelled from the spec: continuous perimeter estimate — contact-line
length divided by the characteristic atomic spacing. -/
noncomputable def perimeterEst (g : Geometry) (v : ℚ) : ℝ :=
  g.perimeterLen / spacingOf v

/-- Modelled from the spec: continuous interface estimate — basal area
divided by the interface facet's area per atom. -/
noncomputable def interfaceEst (g : Geometry) (s : ℚ) : ℝ :=
  g.basalArea / (s : ℝ)

/-- Modelled from the spec: continuous surface estimate — curved area
divided by the surface facet's area per atom. -/
noncomputable def surfaceEst (g : Geometry) (s : ℚ) : ℝ :=
  g.curvedArea / (s : ℝ)

/-- Modelled from the spec: continuous volume-mode total estimate — cap
volume divided by the atomic volume. -/
noncomputable def volumeTotalEst (g : Geometry) (v : ℚ) : ℝ :=
  g.capVolume / (v : ℝ)

/-- Modelled from the spec: the area-mode overlap correction accounts for
atoms double-counted at the perimeter, so it is the perimeter estimate,
capped at the number of atoms actually counted twice at most (the spec
records the precise correction as not recoverable; this model keeps the
spec's stated invariants). -/
noncomputable def overlapCorrection (g : Geometry) (v si ss : ℚ) : ℝ :=
  min (perimeterEst g v) (surfaceEst g ss + interfaceEst g si)

/-- Modelled from the spec: the area-mode total — an area-weighted
composition Surface + Interface − overlap correction. -/
noncomputable def areaTotalEst (g : Geometry) (v si ss : ℚ) : ℝ :=
  surfaceEst g ss + interfaceEst g si - overlapCorrection g v si ss

/-- Modelled from the spec: the continuous total estimate of the selected
mode. -/
noncomputable def totalEst (m : Mode) (g : Geometry) (v si ss : ℚ) : ℝ :=
  match m with
  | .volume => volumeTotalEst g v
  | .area => areaTotalEst g v si ss

/-- Modelled from the spec: the result of the Counting Engine on one row —
integer counts for the four categories. -/
structure CountResult where
  perimeter : ℤ
  interface : ℤ
  surface : ℤ
  total : ℤ
deriving DecidableEq

/-- Modelled from the spec: the Counting Engine — density lookups (with
their errors propagated) followed by round-half-up of each continuous
estimate. -/
noncomputable def count (g : Geometry) (e fInt fSurf : String) (m : Mode) :
    Except CountError CountResult := do
  let v ← lookup_bulk_density e
  let si ← lookup_areal_density e fInt
  let ss ← lookup_areal_density e fSurf
  .ok { perimeter := roundHalfUp (perimeterEst g v)
        interface := roundHalfUp (interfaceEst g si)
        surface := roundHalfUp (surfaceEst g ss)
        total := roundHalfUp (totalEst m g v si ss) }

/-- Modelled from the spec: one input row of the pipeline (blank facet
fields are the empty string). -/
structure InputRow where
  sizeSmall : Option ℝ
  sizeLarge : Option ℝ
  thetaDeg : ℝ
  element : String
  interfaceFacet : String
  surfaceFacet : String

/-- Modelled from the spec: per-row size resolution — `size_small` wins
when both fields are present, `size_large` is used otherwise, and a row
with neither fails with `MissingSizeParameter`. -/
def resolveSize (row : InputRow) : Except CountError SizeParam :=
  match row.sizeSmall with
  | some r => .ok (.small r)
  | none =>
    match row.sizeLarge with
    | some R => .ok (.large R)
    | none => .error .MissingSizeParameter

/-- Modelled from the spec: the per-row pipeline — resolve the size,
resolve the geometry, count. -/
noncomputable def processRow (row : InputRow) (m : Mode) :
    Except CountError CountResult := do
  let sz ← resolveSize row
  let g ← resolve sz row.thetaDeg
  count g row.element row.interfaceFacet row.surfaceFacet m

/-- A tagged size-parameter builder: the row supplies either the small
(contact-radius) or the large (curvature-radius) column. -/
def mkSize (small : Bool) (s : ℝ) : SizeParam :=
  if small then .small s else .large s

/-- An input row carrying a single size value in the tagged column, with
the other size column blank. -/
def rowOf (tag : Bool) (s theta : ℝ) (e fInt fSurf : String) : InputRow :=
  if tag then ⟨some s, none, theta, e, fInt, fSurf⟩
  else ⟨none, some s, theta, e, fInt, fSurf⟩

/-! ## app.py (embedded from the source) -/

/-- The possible outcomes of the run-calculation block of app.py: the
engine raised (traceback shown, stop), the output file is absent or empty
(error shown, stop), or the results are loaded and displayed. -/
inductive RunOutcome where
  | engineError
  | emptyOutput
  | success
deriving DecidableEq

/-- From app.py lines 134-149: after the engine call, an exception stops
the run with the traceback; otherwise a missing or zero-size output file
stops the run with an error; otherwise the run proceeds to the results. -/
def runCalculation (raises outExists : Bool) (outSize : ℕ) : RunOutcome :=
  if raises then .engineError
  else if outExists = false ∨ outSize = 0 then .emptyOutput
  else .success

/-- A file system state: each path maps to the size of the file there,
when one exists. -/
def FS := String → Option ℕ

/-- A tempfile.mkstemp call or a write: a file of the given size now
exists at the path. -/
def createFile (fs : FS) (p : String) (sz : ℕ) : FS :=
  fun q => if q = p then some sz else fs q

/-- An os.remove call: no file exists at the path afterwards. -/
def removeFile (fs : FS) (p : String) : FS :=
  fun q => if q = p then none else fs q

/-- From app.py lines 124-131: the uploaded bytes are written to a fresh
input file, a fresh output name is reserved, and the output path is then
deleted so that it does not exist when the engine is invoked. -/
def preInvocationFS (fs0 : FS) (inPath outPath : String) (uploadSize : ℕ) :
    FS :=
  removeFile (createFile (createFile fs0 inPath uploadSize) outPath 0)
    outPath

/-- From app.py line 60: the options offered by the counting-mode radio
selector. -/
def modeOptions : List String := ["volume", "area"]

/-- Modelled from the spec: the front end's mode selector returns the
option the user picked, i.e. an element of the offered tuple, identified
here by its index (the widget's own code is not in the excerpt). -/
def selectMode (choice : Fin modeOptions.length) : String :=
  modeOptions.get choice

/-- From app.py line 135: the engine is invoked with the selected mode as
its mode argument. -/
def invokedMode (choice : Fin modeOptions.length) : String :=
  selectMode choice

/-! ## atomcounter_benchmark/plot-parity.py (embedded from the source) -/

/-- A parsed CSV table: an ordered list of named numeric columns. -/
structure Table where
  cols : List (String × List ℚ)
deriving DecidableEq

/-- The header list of a table. -/
def Table.headers (t : Table) : List String := t.cols.map Prod.fst

/-- Surrounding whitespace removed from a string, as pandas str.strip
does (stated over the character list, so that it evaluates). -/
def stripWs (s : String) : String :=
  ⟨((s.data.dropWhile Char.isWhitespace).reverse.dropWhile
      Char.isWhitespace).reverse⟩

/-- From plot-parity.py lines 42-44: df.columns.str.strip() — surrounding
whitespace is removed from every header. -/
def Table.strip (t : Table) : Table :=
  ⟨t.cols.map (fun c => (stripWs c.1, c.2))⟩

/-- Column access df[name]: the data of the first column with that
header. -/
def Table.get (t : Table) (name : String) : List ℚ :=
  ((t.cols.find? (fun c => c.1 == name)).map Prod.snd).getD []

/-- From plot-parity.py line 46: the columns common to the two (stripped)
result tables, in first-table order. -/
def commonCols (dfA dfB : Table) : List String :=
  dfA.strip.headers.filter (fun h => dfB.strip.headers.contains h)

/-- From plot-parity.py lines 67-68: the per-row absolute percent
difference abs(100·(x − y)/y), with a non-finite result (division by
y = 0) replaced by the explicit undefined marker (NaN, modelled as
`none`). -/
def percentDiff (x y : ℚ) : Option ℚ :=
  if y = 0 then none else some |100 * (x - y) / y|

/-- A parity scatterplot as saved by plot-parity.py: its column, axis
limits, identity-line endpoints and data. -/
structure ParityPlot where
  column : String
  xlim : ℚ × ℚ
  ylim : ℚ × ℚ
  lineStart : ℚ × ℚ
  lineEnd : ℚ × ℚ
  xData : List ℚ
  yData : List ℚ
deriving DecidableEq

/-- A difference heatmap as saved by plot-parity.py: its column, the
(Theta, R) point coordinates and the colour values. -/
structure Heatmap where
  column : String
  xData : List ℚ
  yData : List ℚ
  values : List (Option ℚ)
deriving DecidableEq

/-- A plot file written by plot-parity.py. -/
inductive Artifact where
  | parity (p : ParityPlot)
  | heat (h : Heatmap)
deriving DecidableEq

/-- The column a plot artifact belongs to. -/
def Artifact.column : Artifact → String
  | .parity p => p.column
  | .heat h => h.column

/-- Whether an artifact is the parity scatterplot of the given column. -/
def isParityOf (colName : String) : Artifact → Bool
  | .parity p => p.column == colName
  | .heat _ => false

/-- Whether an artifact is the difference heatmap of the given column. -/
def isHeatOf (colName : String) : Artifact → Bool
  | .heat h => h.column == colName
  | .parity _ => false

/-- Series.min of pandas, on a nonempty column. -/
def listMin : List ℚ → ℚ
  | [] => 0
  | x :: xs => xs.foldl min x

/-- Series.max of pandas, on a nonempty column. -/
def listMax : List ℚ → ℚ
  | [] => 0
  | x :: xs => xs.foldl max x

/-- From plot-parity.py lines 57-115: the two plots produced for one
common column — the parity scatterplot (identity line from (lo, lo) to
(hi, hi), x and y limits both (lo, hi) where lo and hi are the joint data
extrema padded by 5% of the range) and the heatmap of absolute percent
differences against the input table's Theta and R (A) columns. -/
def artifactsFor (a b c : Table) (colName : String) : List Artifact :=
  let x := a.get colName
  let y := b.get colName
  let lo := min (listMin x) (listMin y)
  let hi := max (listMax x) (listMax y)
  let pad := 5 / 100 * (hi - lo)
  let lo1 := lo - pad
  let hi1 := hi + pad
  [Artifact.parity
      { column := colName
        xlim := (lo1, hi1)
        ylim := (lo1, hi1)
        lineStart := (lo1, lo1)
        lineEnd := (hi1, hi1)
        xData := x
        yData := y },
   Artifact.heat
      { column := colName
        xData := c.get "Theta"
        yData := c.get "R (A)"
        values := List.zipWith percentDiff x y }]

/-- The per-column loop of plot-parity.py main. -/
def runLoop (a b c : Table) : List String → List Artifact
  | [] => []
  | colName :: rest => artifactsFor a b c colName ++ runLoop a b c rest

/-- From plot-parity.py main: strip all three tables' headers, take the
common columns of the two result tables, exit with an error when there
are none, and otherwise produce the two plots for each common column. -/
def plotParityMain (dfA dfB dfC : Table) : Except String (List Artifact) :=
  if (commonCols dfA dfB).isEmpty then
    .error "Error: the two files share no common column headers."
  else
    .ok (runLoop dfA.strip dfB.strip dfC.strip (commonCols dfA dfB))

/-- The axis limits the spec prescribes for a parity plot: the joint data
minimum and maximum padded by 5% of the combined range (stated from the
spec's words, for comparison with the embedded code). -/
def specAxisLimits (x y : List ℚ) : ℚ × ℚ :=
  (min (listMin x) (listMin y)
      - 5 / 100 * (max (listMax x) (listMax y) - min (listMin x) (listMin y)),
   max (listMax x) (listMax y)
      + 5 / 100 * (max (listMax x) (listMax y) - min (listMin x) (listMin y)))

/-! ## Theorems -/

/-- C2: for a row in which both size fields are present, the result of
the row pipeline is determined by size_small alone — two runs on rows
identical except for size_large produce identical CountResults. -/
theorem c2_size_small_precedence (row : InputRow) (r R1 R2 : ℝ) (m : Mode)
    (h : row.sizeSmall = some r) :
    processRow { row with sizeLarge := some R1 } m
      = processRow { row with sizeLarge := some R2 } m := by
  simp [processRow, resolveSize, h]

/-- Witness for C2 at a concrete row. -/
theorem c2_witness :
    processRow ⟨some 100, some 300, 90, "Ag", "", ""⟩ .volume
      = processRow ⟨some 100, some 500, 90, "Ag", "", ""⟩ .volume :=
  c2_size_small_precedence ⟨some 100, some 300, 90, "Ag", "", ""⟩
    100 300 500 .volume rfl

/-- C6: the front end treats a run as successful exactly when the engine
call returned without raising, the output file exists, and it has
non-zero size; otherwise it stops with an error before any results. -/
theorem c6_success_criterion (raises outExists : Bool) (outSize : ℕ) :
    runCalculation raises outExists outSize = .success
      ↔ raises = false ∧ outExists = true ∧ outSize ≠ 0 := by
  cases raises <;> cases outExists <;>
    by_cases h : outSize = 0 <;> simp [runCalculation, h]

/-- C8: every mode value the front end can pass to the engine is drawn
from the two-element radio-selector tuple, i.e. is "volume" or "area". -/
theorem c8_mode_in_set (choice : Fin modeOptions.length) :
    invokedMode choice = "volume" ∨ invokedMode choice = "area" := by
  revert choice
  decide

/-- C9: the output path does not exist at engine-invocation time, so any
output file present after the call differs from the pre-invocation state
and was therefore created during the engine call. -/
theorem c9_output_deleted_before_invocation (fs0 : FS)
    (inPath outPath : String) (uploadSize : ℕ) :
    preInvocationFS fs0 inPath outPath uploadSize outPath = none
    ∧ ∀ engine : FS → FS,
        engine (preInvocationFS fs0 inPath outPath uploadSize) outPath ≠ none →
        engine (preInvocationFS fs0 inPath outPath uploadSize) outPath
          ≠ preInvocationFS fs0 inPath outPath uploadSize outPath := by
  have h : preInvocationFS fs0 inPath outPath uploadSize outPath = none := by
    simp [preInvocationFS, removeFile]
  refine ⟨h, fun engine hne => ?_⟩
  rw [h]
  exact hne

/-- Witness for C9 at a concrete file system, paths, and engine. -/
theorem c9_witness :
    preInvocationFS (fun _ => some 1) "in" "out" 3 "out" = none
    ∧ createFile (preInvocationFS (fun _ => some 1) "in" "out" 3) "out" 5 "out"
        ≠ preInvocationFS (fun _ => some 1) "in" "out" 3 "out" := by
  obtain ⟨h1, h2⟩ :=
    c9_output_deleted_before_invocation (fun _ => some 1) "in" "out" 3
  exact ⟨h1, h2 (fun s => createFile s "out" 5) (by decide)⟩

/-- C4: bulk lookup fails with UnknownElement exactly for elements
without a bulk entry; areal lookup fails with UnknownFacet exactly for a
non-blank facet with no entry for a known element; a blank facet never
fails and resolves to the documented default facet's entry. -/
theorem c4_density_lookup_errors (e f : String) (v : ℚ) :
    (lookup_bulk_density e = .error .UnknownElement
      ↔ bulkAtomicVolume e = none)
    ∧ (bulkAtomicVolume e = some v → f ≠ "" →
        (lookup_areal_density e f = .error .UnknownFacet
          ↔ arealDensityTable e f = none))
    ∧ (bulkAtomicVolume e = some v →
        ∃ a, arealDensityTable e (defaultFacet e) = some a
          ∧ lookup_areal_density e "" = .ok a) := by
  refine ⟨?_, ?_, ?_⟩
  · cases hb : bulkAtomicVolume e <;> simp [lookup_bulk_density, hb]
  · intro hb hf
    cases ha : arealDensityTable e f <;>
      simp [lookup_areal_density, hb, resolveFacet, hf, ha]
  · intro hb
    have he : e = "Ag" ∨ e = "Pd" ∨ e = "Cu" := by
      by_contra hc
      push_neg at hc
      obtain ⟨h1, h2, h3⟩ := hc
      simp [bulkAtomicVolume, h1, h2, h3] at hb
    rcases he with rfl | rfl | rfl <;> exact ⟨_, rfl, rfl⟩

/-- Witness for C4 at concrete elements and facets. -/
theorem c4_witness :
    (lookup_bulk_density "Xx" = .error .UnknownElement
      ↔ bulkAtomicVolume "Xx" = none)
    ∧ (lookup_areal_density "Ag" "123" = .error .UnknownFacet
      ↔ arealDensityTable "Ag" "123" = none)
    ∧ ∃ a, arealDensityTable "Ag" (defaultFacet "Ag") = some a
        ∧ lookup_areal_density "Ag" "" = .ok a :=
  ⟨(c4_density_lookup_errors "Xx" "" 0).1,
   (c4_density_lookup_errors "Ag" "123" (1711 / 100)).2.1 rfl (by decide),
   (c4_density_lookup_errors "Ag" "123" (1711 / 100)).2.2 rfl⟩

/-- C5: the heatmap values of the comparison utility are the elementwise
percent differences of the two tables' columns; each value equals
100·|x − y|/y when y > 0, and the non-finite case y = 0 is replaced by
the explicit undefined marker. -/
theorem c5_percent_difference (dfA dfB dfC : Table) (colName : String)
    (x y : ℚ) :
    (∀ hm, Artifact.heat hm ∈ artifactsFor dfA dfB dfC colName →
        hm.values
          = List.zipWith percentDiff (dfA.get colName) (dfB.get colName))
    ∧ (0 < y → percentDiff x y = some (100 * |x - y| / y))
    ∧ percentDiff x 0 = none := by
  refine ⟨?_, ?_, by simp [percentDiff]⟩
  · intro hm hmem
    simp [artifactsFor] at hmem
    subst hmem
    rfl
  · intro hy
    rw [percentDiff, if_neg (ne_of_gt hy)]
    congr 1
    rw [abs_div, abs_mul, abs_of_pos hy]
    norm_num

/-- Witness for C5 at concrete values and a concrete heatmap. -/
theorem c5_witness :
    percentDiff 3 2 = some (100 * |3 - 2| / 2)
    ∧ percentDiff 3 0 = none
    ∧ Heatmap.values ⟨"Total", [], [], []⟩
        = List.zipWith percentDiff (Table.get ⟨[]⟩ "Total")
            (Table.get ⟨[]⟩ "Total") :=
  ⟨(c5_percent_difference ⟨[]⟩ ⟨[]⟩ ⟨[]⟩ "Total" 3 2).2.1 (by norm_num),
   (c5_percent_difference ⟨[]⟩ ⟨[]⟩ ⟨[]⟩ "Total" 3 2).2.2,
   (c5_percent_difference ⟨[]⟩ ⟨[]⟩ ⟨[]⟩ "Total" 3 2).1
     ⟨"Total", [], [], []⟩ (by decide)⟩

/-- Every artifact of one column's iteration belongs to that column. -/
theorem column_of_mem_artifactsFor (a b c : Table) (d : String)
    (art : Artifact) (h : art ∈ artifactsFor a b c d) : art.column = d := by
  simp [artifactsFor] at h
  rcases h with rfl | rfl <;> rfl

/-- Every artifact of the loop belongs to one of the looped columns. -/
theorem column_of_mem_runLoop (a b c : Table) (l : List String)
    (art : Artifact) (h : art ∈ runLoop a b c l) : art.column ∈ l := by
  induction l with
  | nil => simp [runLoop] at h
  | cons d rest ih =>
    rw [runLoop] at h
    rcases List.mem_append.mp h with h1 | h2
    · rw [column_of_mem_artifactsFor a b c d art h1]
      exact List.mem_cons_self d rest
    · exact List.mem_cons_of_mem d (ih h2)

/-- The loop keeps every artifact of each looped column's iteration. -/
theorem mem_runLoop_of_mem (a b c : Table) {l : List String}
    {colName : String} (h : colName ∈ l) :
    ∀ art ∈ artifactsFor a b c colName, art ∈ runLoop a b c l := by
  induction l with
  | nil => simp at h
  | cons d rest ih =>
    intro art hart
    rw [runLoop]
    rcases List.mem_cons.mp h with rfl | h2
    · exact List.mem_append_left _ hart
    · exact List.mem_append_right _ (ih h2 art hart)

/-- A parity-artifact match implies the matched column. -/
theorem column_of_isParityOf {colName : String} {art : Artifact}
    (h : isParityOf colName art = true) : art.column = colName := by
  cases art with
  | parity p => simpa [isParityOf, Artifact.column] using h
  | heat hm => simp [isParityOf] at h

/-- A heatmap-artifact match implies the matched column. -/
theorem column_of_isHeatOf {colName : String} {art : Artifact}
    (h : isHeatOf colName art = true) : art.column = colName := by
  cases art with
  | parity p => simp [isHeatOf] at h
  | heat hm => simpa [isHeatOf, Artifact.column] using h

/-- A column-specific artifact filter is empty over iterations of other
columns. -/
theorem filter_artifactsFor_eq_nil (a b c : Table) (d : String)
    (p : Artifact → Bool) (colName : String)
    (hp : ∀ art, p art = true → art.column = colName) (hd : d ≠ colName) :
    (artifactsFor a b c d).filter p = [] := by
  rw [List.filter_eq_nil_iff]
  intro art hart hpa
  exact hd ((column_of_mem_artifactsFor a b c d art hart) ▸ hp art hpa)

/-- A column-specific artifact filter is empty over a loop that never
visits the column. -/
theorem filter_runLoop_eq_nil (a b c : Table) (l : List String)
    (p : Artifact → Bool) (colName : String)
    (hp : ∀ art, p art = true → art.column = colName) (hno : colName ∉ l) :
    (runLoop a b c l).filter p = [] := by
  rw [List.filter_eq_nil_iff]
  intro art hart hpa
  exact hno (hp art hpa ▸ column_of_mem_runLoop a b c l art hart)

/-- A column-specific filter that selects exactly one artifact of the
column's own iteration selects exactly one artifact of the whole loop,
when the loop visits the column once. -/
theorem length_filter_runLoop (a b c : Table) (p : Artifact → Bool)
    (colName : String) (hp : ∀ art, p art = true → art.column = colName)
    (hone : ((artifactsFor a b c colName).filter p).length = 1)
    (l : List String) (hnd : l.Nodup) (hmem : colName ∈ l) :
    ((runLoop a b c l).filter p).length = 1 := by
  induction l with
  | nil => simp at hmem
  | cons d rest ih =>
    rw [runLoop, List.filter_append, List.length_append]
    rcases List.mem_cons.mp hmem with rfl | h2
    · rw [hone,
        filter_runLoop_eq_nil a b c rest p _ hp (List.nodup_cons.mp hnd).1]
      rfl
    · have hd : d ≠ colName := by
        intro hdc
        exact (List.nodup_cons.mp hnd).1 (hdc ▸ h2)
      rw [filter_artifactsFor_eq_nil a b c d p colName hp hd,
        ih (List.nodup_cons.mp hnd).2 h2]
      rfl

/-- Every parity plot the loop produces carries equal padded axis limits
and the identity line between its corners. -/
theorem parity_fields_of_mem_runLoop (a b c : Table) (l : List String)
    (p : ParityPlot) (h : Artifact.parity p ∈ runLoop a b c l) :
    p.xlim = p.ylim
    ∧ p.xlim = specAxisLimits (a.get p.column) (b.get p.column)
    ∧ p.lineStart = (p.xlim.1, p.xlim.1)
    ∧ p.lineEnd = (p.xlim.2, p.xlim.2) := by
  induction l with
  | nil => simp [runLoop] at h
  | cons d rest ih =>
    rw [runLoop] at h
    rcases List.mem_append.mp h with h1 | h2
    · simp [artifactsFor] at h1
      subst h1
      exact ⟨rfl, rfl, rfl, rfl⟩
    · exact ih h2

/-- Every heatmap the loop produces shows the percent differences of the
two tables' columns against the input table's Theta and R columns. -/
theorem heat_fields_of_mem_runLoop (a b c : Table) (l : List String)
    (hm : Heatmap) (h : Artifact.heat hm ∈ runLoop a b c l) :
    hm.values = List.zipWith percentDiff (a.get hm.column) (b.get hm.column)
    ∧ hm.xData = c.get "Theta" ∧ hm.yData = c.get "R (A)" := by
  induction l with
  | nil => simp [runLoop] at h
  | cons d rest ih =>
    rw [runLoop] at h
    rcases List.mem_append.mp h with h1 | h2
    · simp [artifactsFor] at h1
      subst h1
      exact ⟨rfl, rfl, rfl⟩
    · exact ih h2

/-- Each column's iteration contains an artifact of that column. -/
theorem exists_artifact_of_column (a b c : Table) (colName : String) :
    ∃ art ∈ artifactsFor a b c colName, art.column = colName := by
  refine ⟨Artifact.heat
    { column := colName
      xData := c.get "Theta"
      yData := c.get "R (A)"
      values := List.zipWith percentDiff (a.get colName) (b.get colName) },
    ?_, rfl⟩
  simp [artifactsFor]

/-- C7: for each column shared by the two (stripped) tables, the
comparison utility produces exactly one parity scatterplot — identity
line between the corners, equal x and y limits padded by 5% of the joint
data range — and exactly one heatmap of the absolute percent differences
against the input table's Theta and R columns. -/
theorem c7_one_parity_one_heatmap (dfA dfB dfC : Table) (colName : String)
    (hnd : (commonCols dfA dfB).Nodup)
    (hmem : colName ∈ commonCols dfA dfB) :
    ∃ arts, plotParityMain dfA dfB dfC = .ok arts
      ∧ (arts.filter (isParityOf colName)).length = 1
      ∧ (arts.filter (isHeatOf colName)).length = 1
      ∧ (∀ p, Artifact.parity p ∈ arts → p.column = colName →
          p.xlim = p.ylim
          ∧ p.xlim
              = specAxisLimits (dfA.strip.get colName) (dfB.strip.get colName)
          ∧ p.lineStart = (p.xlim.1, p.xlim.1)
          ∧ p.lineEnd = (p.xlim.2, p.xlim.2))
      ∧ (∀ hm, Artifact.heat hm ∈ arts → hm.column = colName →
          hm.values
              = List.zipWith percentDiff (dfA.strip.get colName)
                  (dfB.strip.get colName)
          ∧ hm.xData = dfC.strip.get "Theta"
          ∧ hm.yData = dfC.strip.get "R (A)") := by
  have hne : (commonCols dfA dfB).isEmpty = false := by
    cases hC : commonCols dfA dfB with
    | nil => rw [hC] at hmem; simp at hmem
    | cons x xs => rfl
  refine ⟨runLoop dfA.strip dfB.strip dfC.strip (commonCols dfA dfB),
    by simp [plotParityMain, hne], ?_, ?_, ?_, ?_⟩
  · refine length_filter_runLoop _ _ _ _ colName
      (fun art => column_of_isParityOf) ?_ _ hnd hmem
    simp [artifactsFor, isParityOf]
  · refine length_filter_runLoop _ _ _ _ colName
      (fun art => column_of_isHeatOf) ?_ _ hnd hmem
    simp [artifactsFor, isHeatOf]
  · intro p hp hcol
    have := parity_fields_of_mem_runLoop _ _ _ _ p hp
    rw [hcol] at this
    exact this
  · intro hm hhm hcol
    have := heat_fields_of_mem_runLoop _ _ _ _ hm hhm
    rw [hcol] at this
    exact this

/-- Witness for C7 at concrete tables sharing the column Total. -/
theorem c7_witness :
    ∃ arts,
      plotParityMain ⟨[("Total", [1, 2])]⟩ ⟨[(" Total", [2, 2])]⟩
          ⟨[("Theta", [90, 120]), ("R (A)", [50, 60])]⟩ = .ok arts
      ∧ (arts.filter (isParityOf "Total")).length = 1
      ∧ (arts.filter (isHeatOf "Total")).length = 1
      ∧ (∀ p, Artifact.parity p ∈ arts → p.column = "Total" →
          p.xlim = p.ylim
          ∧ p.xlim
              = specAxisLimits
                  (Table.strip ⟨[("Total", [1, 2])]⟩ |>.get "Total")
                  (Table.strip ⟨[(" Total", [2, 2])]⟩ |>.get "Total")
          ∧ p.lineStart = (p.xlim.1, p.xlim.1)
          ∧ p.lineEnd = (p.xlim.2, p.xlim.2))
      ∧ (∀ hm, Artifact.heat hm ∈ arts → hm.column = "Total" →
          hm.values
              = List.zipWith percentDiff
                  (Table.strip ⟨[("Total", [1, 2])]⟩ |>.get "Total")
                  (Table.strip ⟨[(" Total", [2, 2])]⟩ |>.get "Total")
          ∧ hm.xData
              = (Table.strip ⟨[("Theta", [90, 120]), ("R (A)", [50, 60])]⟩
                  |>.get "Theta")
          ∧ hm.yData
              = (Table.strip ⟨[("Theta", [90, 120]), ("R (A)", [50, 60])]⟩
                  |>.get "R (A)")) :=
  c7_one_parity_one_heatmap ⟨[("Total", [1, 2])]⟩ ⟨[(" Total", [2, 2])]⟩
    ⟨[("Theta", [90, 120]), ("R (A)", [50, 60])]⟩ "Total"
    (by decide) (by decide)

/-- C10: with no shared column headers after stripping, the comparison
utility stops with an error and produces no plots; with a non-empty
intersection it produces plots for exactly the columns of the
intersection. -/
theorem c10_common_column_handling (dfA dfB dfC : Table) :
    (commonCols dfA dfB = [] →
        plotParityMain dfA dfB dfC
          = .error "Error: the two files share no common column headers.")
    ∧ (commonCols dfA dfB ≠ [] →
        ∃ arts, plotParityMain dfA dfB dfC = .ok arts
          ∧ (∀ art ∈ arts, art.column ∈ commonCols dfA dfB)
          ∧ (∀ colName ∈ commonCols dfA dfB,
              ∃ art ∈ arts, art.column = colName)) := by
  constructor
  · intro h
    simp [plotParityMain, h]
  · intro h
    have hne : (commonCols dfA dfB).isEmpty = false := by
      cases hC : commonCols dfA dfB with
      | nil => exact absurd hC h
      | cons x xs => rfl
    refine ⟨runLoop dfA.strip dfB.strip dfC.strip (commonCols dfA dfB),
      by simp [plotParityMain, hne], ?_, ?_⟩
    · intro art hart
      exact column_of_mem_runLoop _ _ _ _ art hart
    · intro colName hcol
      obtain ⟨art, hart, hc⟩ :=
        exists_artifact_of_column dfA.strip dfB.strip dfC.strip colName
      exact ⟨art, mem_runLoop_of_mem _ _ _ hcol art hart, hc⟩

/-- Witness for C10 at concrete tables with and without shared headers. -/
theorem c10_witness :
    plotParityMain ⟨[("Total", [1])]⟩ ⟨[("Other", [1])]⟩ ⟨[]⟩
      = .error "Error: the two files share no common column headers."
    ∧ ∃ arts,
        plotParityMain ⟨[("Total", [1])]⟩ ⟨[("Total", [2])]⟩ ⟨[]⟩ = .ok arts
        ∧ (∀ art ∈ arts,
            art.column ∈ commonCols ⟨[("Total", [1])]⟩ ⟨[("Total", [2])]⟩)
        ∧ (∀ colName ∈ commonCols ⟨[("Total", [1])]⟩ ⟨[("Total", [2])]⟩,
            ∃ art ∈ arts, art.column = colName) :=
  ⟨(c10_common_column_handling ⟨[("Total", [1])]⟩ ⟨[("Other", [1])]⟩
      ⟨[]⟩).1 (by decide),
   (c10_common_column_handling ⟨[("Total", [1])]⟩ ⟨[("Total", [2])]⟩
      ⟨[]⟩).2 (by decide)⟩

/-- The contact angle in radians is positive for 0 < θ (degrees). -/
theorem thetaRad_pos {theta : ℝ} (h1 : 0 < theta) :
    0 < theta * Real.pi / 180 := by positivity

/-- The sine of a contact angle strictly between 0° and 180° is
positive. -/
theorem sin_theta_pos {theta : ℝ} (h1 : 0 < theta) (h2 : theta < 180) :
    0 < Real.sin (theta * Real.pi / 180) :=
  Real.sin_pos_of_pos_of_lt_pi (thetaRad_pos h1)
    (by nlinarith [Real.pi_pos])

/-- The cosine of a contact angle strictly between 0° and 180° is below
one. -/
theorem cos_theta_lt_one {theta : ℝ} (h1 : 0 < theta) (h2 : theta < 180) :
    Real.cos (theta * Real.pi / 180) < 1 := by
  have hs := sin_theta_pos h1 h2
  nlinarith [Real.sin_sq_add_cos_sq (theta * Real.pi / 180)]

/-- Base radius of the cap geometry, in closed form. -/
theorem capGeometry_baseRadius (Rs theta : ℝ) :
    (capGeometry Rs theta).baseRadius
      = Rs * Real.sin (theta * Real.pi / 180) := rfl

/-- Cap height of the cap geometry, in closed form. -/
theorem capGeometry_capHeight (Rs theta : ℝ) :
    (capGeometry Rs theta).capHeight
      = Rs * (1 - Real.cos (theta * Real.pi / 180)) := rfl

/-- Curved area of the cap geometry, in closed form. -/
theorem capGeometry_curvedArea (Rs theta : ℝ) :
    (capGeometry Rs theta).curvedArea
      = 2 * Real.pi * Rs * (Rs * (1 - Real.cos (theta * Real.pi / 180))) :=
  rfl

/-- Basal area of the cap geometry, in closed form. -/
theorem capGeometry_basalArea (Rs theta : ℝ) :
    (capGeometry Rs theta).basalArea
      = Real.pi * (Rs * Real.sin (theta * Real.pi / 180)) ^ 2 := rfl

/-- Perimeter length of the cap geometry, in closed form. -/
theorem capGeometry_perimeterLen (Rs theta : ℝ) :
    (capGeometry Rs theta).perimeterLen
      = 2 * Real.pi * (Rs * Real.sin (theta * Real.pi / 180)) := rfl

/-- Cap volume of the cap geometry, in closed form. -/
theorem capGeometry_capVolume (Rs theta : ℝ) :
    (capGeometry Rs theta).capVolume
      = Real.pi / 3 * (Rs * (1 - Real.cos (theta * Real.pi / 180))) ^ 2
          * (3 * Rs - Rs * (1 - Real.cos (theta * Real.pi / 180))) := rfl

/-- The atomic spacing is positive for a positive atomic volume. -/
theorem spacingOf_pos {v : ℚ} (hv : 0 < v) : 0 < spacingOf v :=
  Real.rpow_pos_of_pos (by exact_mod_cast hv) _

/-- The perimeter estimate as a linear function of the sphere radius. -/
theorem perimeterEst_cap (Rs theta : ℝ) (v : ℚ) :
    perimeterEst (capGeometry Rs theta) v
      = 2 * Real.pi * Real.sin (theta * Real.pi / 180) / spacingOf v * Rs := by
  unfold perimeterEst
  rw [capGeometry_perimeterLen]
  ring

/-- The interface estimate as a quadratic function of the sphere
radius. -/
theorem interfaceEst_cap (Rs theta : ℝ) (s : ℚ) :
    interfaceEst (capGeometry Rs theta) s
      = Real.pi * Real.sin (theta * Real.pi / 180) ^ 2 / (s : ℝ) * Rs ^ 2 := by
  unfold interfaceEst
  rw [capGeometry_basalArea]
  ring

/-- The surface estimate as a quadratic function of the sphere radius. -/
theorem surfaceEst_cap (Rs theta : ℝ) (s : ℚ) :
    surfaceEst (capGeometry Rs theta) s
      = 2 * Real.pi * (1 - Real.cos (theta * Real.pi / 180)) / (s : ℝ)
          * Rs ^ 2 := by
  unfold surfaceEst
  rw [capGeometry_curvedArea]
  ring

/-- The volume-mode total estimate as a cubic function of the sphere
radius. -/
theorem volumeTotalEst_cap (Rs theta : ℝ) (v : ℚ) :
    volumeTotalEst (capGeometry Rs theta) v
      = Real.pi / 3 * (1 - Real.cos (theta * Real.pi / 180)) ^ 2
          * (2 + Real.cos (theta * Real.pi / 180)) / (v : ℝ) * Rs ^ 3 := by
  unfold volumeTotalEst
  rw [capGeometry_capVolume]
  ring

/-- Every bulk entry of the catalog is positive. -/
theorem bulk_entry_pos (e : String) (v : ℚ)
    (h : bulkAtomicVolume e = some v) : 0 < v := by
  unfold bulkAtomicVolume at h
  split_ifs at h <;>
    first
      | (injection h with h2; rw [← h2]; norm_num)
      | injection h

/-- Every areal entry of the catalog is positive. -/
theorem areal_entry_pos (e f : String) (a : ℚ)
    (h : arealDensityTable e f = some a) : 0 < a := by
  unfold arealDensityTable at h
  split_ifs at h <;>
    first
      | (injection h with h2; rw [← h2]; norm_num)
      | injection h

/-- A successful bulk lookup returns a positive atomic volume. -/
theorem lookup_bulk_pos (e : String) (v : ℚ)
    (h : lookup_bulk_density e = .ok v) : 0 < v := by
  unfold lookup_bulk_density at h
  cases hb : bulkAtomicVolume e with
  | none => rw [hb] at h; injection h
  | some w =>
    rw [hb] at h
    injection h with h2
    exact h2 ▸ bulk_entry_pos e w hb

/-- A successful areal lookup returns a positive area per atom. -/
theorem lookup_areal_pos (e f : String) (s : ℚ)
    (h : lookup_areal_density e f = .ok s) : 0 < s := by
  unfold lookup_areal_density at h
  cases hb : bulkAtomicVolume e with
  | none => rw [hb] at h; injection h
  | some w =>
    rw [hb] at h
    cases ha : arealDensityTable e (resolveFacet e f) with
    | none => rw [ha] at h; injection h
    | some a =>
      rw [ha] at h
      injection h with h2
      exact h2 ▸ areal_entry_pos e (resolveFacet e f) a ha

/-- Round-half-up of a non-negative estimate is non-negative. -/
theorem roundHalfUp_nonneg {x : ℝ} (hx : 0 ≤ x) : 0 ≤ roundHalfUp x :=
  Int.floor_nonneg.mpr (by linarith)

/-- Round-half-up is monotone. -/
theorem roundHalfUp_mono {x y : ℝ} (h : x ≤ y) :
    roundHalfUp x ≤ roundHalfUp y :=
  Int.floor_le_floor (by linarith)

/-- The sphere radius recovered from a positive size parameter is
positive for a valid contact angle. -/
theorem sphereRadius_pos {sz : SizeParam} {theta : ℝ} (hval : 0 < sz.val)
    (h1 : 0 < theta) (h2 : theta < 180) : 0 < sphereRadius sz theta := by
  cases sz with
  | small r => exact div_pos hval (sin_theta_pos h1 h2)
  | large R => exact hval

/-- The engine's result when all three density lookups succeed. -/
theorem count_eq (g : Geometry) (e fInt fSurf : String) (m : Mode)
    (v si ss : ℚ)
    (hv : lookup_bulk_density e = .ok v)
    (hi : lookup_areal_density e fInt = .ok si)
    (hs : lookup_areal_density e fSurf = .ok ss) :
    count g e fInt fSurf m
      = .ok { perimeter := roundHalfUp (perimeterEst g v)
              interface := roundHalfUp (interfaceEst g si)
              surface := roundHalfUp (surfaceEst g ss)
              total := roundHalfUp (totalEst m g v si ss) } := by
  unfold count
  rw [hv, hi, hs]
  rfl

/-- The row pipeline reduces to the engine on the resolved geometry when
the row resolves and is geometrically valid. -/
theorem processRow_eq (row : InputRow) (sz : SizeParam) (m : Mode)
    (hsz : resolveSize row = .ok sz) (hval : 0 < sz.val)
    (h1 : 0 < row.thetaDeg) (h2 : row.thetaDeg < 180) :
    processRow row m
      = count (capGeometry (sphereRadius sz row.thetaDeg) row.thetaDeg)
          row.element row.interfaceFacet row.surfaceFacet m := by
  have hres : resolve sz row.thetaDeg
      = .ok (capGeometry (sphereRadius sz row.thetaDeg) row.thetaDeg) := by
    unfold resolve
    rw [if_pos ⟨hval, h1, h2⟩]
  unfold processRow
  rw [hsz]
  show resolve sz row.thetaDeg >>= _ = _
  rw [hres]
  rfl

/-- The perimeter estimate is non-negative on a valid geometry. -/
theorem perimeterEst_nonneg {Rs theta : ℝ} {v : ℚ} (hRs : 0 ≤ Rs)
    (h1 : 0 < theta) (h2 : theta < 180) (hv : 0 < v) :
    0 ≤ perimeterEst (capGeometry Rs theta) v := by
  rw [perimeterEst_cap]
  refine mul_nonneg (div_nonneg ?_ (spacingOf_pos hv).le) hRs
  exact mul_nonneg (by positivity) (sin_theta_pos h1 h2).le

/-- The interface estimate is non-negative on a valid geometry. -/
theorem interfaceEst_nonneg {Rs theta : ℝ} {s : ℚ} (hs : 0 < s) :
    0 ≤ interfaceEst (capGeometry Rs theta) s := by
  rw [interfaceEst_cap]
  refine mul_nonneg (div_nonneg ?_ ?_) (sq_nonneg Rs)
  · exact mul_nonneg Real.pi_pos.le (sq_nonneg _)
  · exact_mod_cast hs.le

/-- The surface estimate is non-negative on a valid geometry. -/
theorem surfaceEst_nonneg {Rs theta : ℝ} {s : ℚ} (hs : 0 < s) :
    0 ≤ surfaceEst (capGeometry Rs theta) s := by
  rw [surfaceEst_cap]
  refine mul_nonneg (div_nonneg ?_ ?_) (sq_nonneg Rs)
  · exact mul_nonneg (by positivity)
      (sub_nonneg.mpr (Real.cos_le_one _))
  · exact_mod_cast hs.le

/-- The volume-mode total estimate is non-negative on a valid geometry. -/
theorem volumeTotalEst_nonneg {Rs theta : ℝ} {v : ℚ} (hRs : 0 ≤ Rs)
    (hv : 0 < v) : 0 ≤ volumeTotalEst (capGeometry Rs theta) v := by
  rw [volumeTotalEst_cap]
  refine mul_nonneg (div_nonneg ?_ ?_) (pow_nonneg hRs 3)
  · refine mul_nonneg (mul_nonneg (by positivity) (sq_nonneg _)) ?_
    nlinarith [Real.neg_one_le_cos (theta * Real.pi / 180)]
  · exact_mod_cast hv.le

/-- The area-mode total estimate is non-negative on every geometry: the
overlap correction never exceeds the counted pool. -/
theorem areaTotalEst_nonneg (g : Geometry) (v si ss : ℚ) :
    0 ≤ areaTotalEst g v si ss := by
  unfold areaTotalEst overlapCorrection
  exact sub_nonneg.mpr (min_le_right _ _)

/-- The area-mode total estimate in closed form: the positive part of the
quadratic-minus-linear polynomial in the sphere radius. -/
theorem areaTotalEst_cap (Rs theta : ℝ) (v si ss : ℚ) :
    areaTotalEst (capGeometry Rs theta) v si ss
      = max ((2 * Real.pi * (1 - Real.cos (theta * Real.pi / 180)) / (ss : ℝ)
              + Real.pi * Real.sin (theta * Real.pi / 180) ^ 2 / (si : ℝ))
                * Rs ^ 2
            - 2 * Real.pi * Real.sin (theta * Real.pi / 180) / spacingOf v
                * Rs) 0 := by
  have key : ∀ x y : ℝ, x - min y x = max (x - y) 0 := by
    intro x y
    rcases le_total y x with h | h
    · rw [min_eq_left h, max_eq_left (by linarith)]
    · rw [min_eq_right h, max_eq_right (by linarith), sub_self]
  unfold areaTotalEst overlapCorrection
  rw [key (surfaceEst _ ss + interfaceEst _ si) (perimeterEst _ v)]
  rw [surfaceEst_cap, interfaceEst_cap, perimeterEst_cap]
  congr 1
  ring

/-- The positive part of c2·r² − c1·r is monotone in r > 0 for
non-negative coefficients. -/
theorem quad_max_mono {c1 c2 r1 r2 : ℝ} (_hc1 : 0 ≤ c1) (hc2 : 0 ≤ c2)
    (hr1 : 0 < r1) (hr : r1 ≤ r2) :
    max (c2 * r1 ^ 2 - c1 * r1) 0 ≤ max (c2 * r2 ^ 2 - c1 * r2) 0 := by
  rcases le_or_lt (c2 * r1 ^ 2 - c1 * r1) 0 with h | h
  · rw [max_eq_right h]
    exact le_max_right _ _
  · have hf : c2 * r1 ^ 2 - c1 * r1 ≤ c2 * r2 ^ 2 - c1 * r2 := by
      nlinarith [mul_nonneg (sub_nonneg.mpr hr) h.le,
        mul_nonneg (mul_nonneg (mul_nonneg hc2 hr1.le) (hr1.le.trans hr))
          (sub_nonneg.mpr hr)]
    calc max (c2 * r1 ^ 2 - c1 * r1) 0
        = c2 * r1 ^ 2 - c1 * r1 := max_eq_left h.le
      _ ≤ c2 * r2 ^ 2 - c1 * r2 := hf
      _ ≤ max (c2 * r2 ^ 2 - c1 * r2) 0 := le_max_left _ _

/-- The perimeter estimate is monotone in the sphere radius. -/
theorem perimeterEst_mono {R1 R2 theta : ℝ} {v : ℚ} (hR : R1 ≤ R2)
    (h1 : 0 < theta) (h2 : theta < 180) (hv : 0 < v) :
    perimeterEst (capGeometry R1 theta) v
      ≤ perimeterEst (capGeometry R2 theta) v := by
  rw [perimeterEst_cap, perimeterEst_cap]
  refine mul_le_mul_of_nonneg_left hR
    (div_nonneg ?_ (spacingOf_pos hv).le)
  exact mul_nonneg (by positivity) (sin_theta_pos h1 h2).le

/-- The interface estimate is monotone in the sphere radius. -/
theorem interfaceEst_mono {R1 R2 theta : ℝ} {s : ℚ} (hR1 : 0 ≤ R1)
    (hR : R1 ≤ R2) (hs : 0 < s) :
    interfaceEst (capGeometry R1 theta) s
      ≤ interfaceEst (capGeometry R2 theta) s := by
  rw [interfaceEst_cap, interfaceEst_cap]
  refine mul_le_mul_of_nonneg_left (pow_le_pow_left₀ hR1 hR 2)
    (div_nonneg (mul_nonneg Real.pi_pos.le (sq_nonneg _)) ?_)
  exact_mod_cast hs.le

/-- The surface estimate is monotone in the sphere radius. -/
theorem surfaceEst_mono {R1 R2 theta : ℝ} {s : ℚ} (hR1 : 0 ≤ R1)
    (hR : R1 ≤ R2) (hs : 0 < s) :
    surfaceEst (capGeometry R1 theta) s
      ≤ surfaceEst (capGeometry R2 theta) s := by
  rw [surfaceEst_cap, surfaceEst_cap]
  refine mul_le_mul_of_nonneg_left (pow_le_pow_left₀ hR1 hR 2)
    (div_nonneg (mul_nonneg (by positivity)
      (sub_nonneg.mpr (Real.cos_le_one _))) ?_)
  exact_mod_cast hs.le

/-- The volume-mode total estimate is monotone in the sphere radius. -/
theorem volumeTotalEst_mono {R1 R2 theta : ℝ} {v : ℚ} (hR1 : 0 ≤ R1)
    (hR : R1 ≤ R2) (hv : 0 < v) :
    volumeTotalEst (capGeometry R1 theta) v
      ≤ volumeTotalEst (capGeometry R2 theta) v := by
  rw [volumeTotalEst_cap, volumeTotalEst_cap]
  refine mul_le_mul_of_nonneg_left (pow_le_pow_left₀ hR1 hR 3)
    (div_nonneg (mul_nonneg (mul_nonneg (by positivity) (sq_nonneg _)) ?_)
      ?_)
  · nlinarith [Real.neg_one_le_cos (theta * Real.pi / 180)]
  · exact_mod_cast hv.le

/-- The area-mode total estimate is monotone in the sphere radius. -/
theorem areaTotalEst_mono {R1 R2 theta : ℝ} {v si ss : ℚ} (hR1 : 0 < R1)
    (hR : R1 ≤ R2) (h1 : 0 < theta) (h2 : theta < 180) (hv : 0 < v)
    (hsi : 0 < si) (hss : 0 < ss) :
    areaTotalEst (capGeometry R1 theta) v si ss
      ≤ areaTotalEst (capGeometry R2 theta) v si ss := by
  rw [areaTotalEst_cap, areaTotalEst_cap]
  refine quad_max_mono ?_ ?_ hR1 hR
  · refine div_nonneg ?_ (spacingOf_pos hv).le
    exact mul_nonneg (by positivity) (sin_theta_pos h1 h2).le
  · refine add_nonneg (div_nonneg ?_ ?_) (div_nonneg ?_ ?_)
    · exact mul_nonneg (by positivity)
        (sub_nonneg.mpr (Real.cos_le_one _))
    · exact_mod_cast hss.le
    · exact mul_nonneg Real.pi_pos.le (sq_nonneg _)
    · exact_mod_cast hsi.le

/-- The total estimate of either mode is monotone in the sphere radius. -/
theorem totalEst_mono {R1 R2 theta : ℝ} {v si ss : ℚ} (m : Mode)
    (hR1 : 0 < R1) (hR : R1 ≤ R2) (h1 : 0 < theta) (h2 : theta < 180)
    (hv : 0 < v) (hsi : 0 < si) (hss : 0 < ss) :
    totalEst m (capGeometry R1 theta) v si ss
      ≤ totalEst m (capGeometry R2 theta) v si ss := by
  cases m with
  | volume => exact volumeTotalEst_mono hR1.le hR hv
  | area => exact areaTotalEst_mono hR1 hR h1 h2 hv hsi hss

/-- The total estimate of either mode is non-negative on a valid
geometry. -/
theorem totalEst_nonneg {Rs theta : ℝ} {v si ss : ℚ} (m : Mode)
    (hRs : 0 ≤ Rs) (hv : 0 < v) :
    0 ≤ totalEst m (capGeometry Rs theta) v si ss := by
  cases m with
  | volume => exact volumeTotalEst_nonneg hRs hv
  | area => exact areaTotalEst_nonneg _ _ _ _

/-- The tagged size builder resolves from the tagged row column. -/
theorem resolveSize_rowOf (tag : Bool) (s theta : ℝ)
    (e fInt fSurf : String) :
    resolveSize (rowOf tag s theta e fInt fSurf) = .ok (mkSize tag s) := by
  cases tag <;> rfl

/-- Componentwise monotonicity of the engine in the sphere radius. -/
theorem count_mono_core (theta : ℝ) (e fInt fSurf : String) (m : Mode)
    (R1 R2 : ℝ) (v si ss : ℚ) (hR1 : 0 < R1) (hR : R1 ≤ R2)
    (h1 : 0 < theta) (h2 : theta < 180)
    (hv : lookup_bulk_density e = .ok v)
    (hi : lookup_areal_density e fInt = .ok si)
    (hs : lookup_areal_density e fSurf = .ok ss) :
    ∃ r1 r2, count (capGeometry R1 theta) e fInt fSurf m = .ok r1
      ∧ count (capGeometry R2 theta) e fInt fSurf m = .ok r2
      ∧ r1.perimeter ≤ r2.perimeter ∧ r1.interface ≤ r2.interface
      ∧ r1.surface ≤ r2.surface ∧ r1.total ≤ r2.total := by
  have hvp := lookup_bulk_pos e v hv
  have hip := lookup_areal_pos e fInt si hi
  have hsp := lookup_areal_pos e fSurf ss hs
  rw [count_eq _ _ _ _ m v si ss hv hi hs,
    count_eq _ _ _ _ m v si ss hv hi hs]
  refine ⟨_, _, rfl, rfl, ?_, ?_, ?_, ?_⟩
  · exact roundHalfUp_mono (perimeterEst_mono hR h1 h2 hvp)
  · exact roundHalfUp_mono (interfaceEst_mono hR1.le hR hip)
  · exact roundHalfUp_mono (surfaceEst_mono hR1.le hR hsp)
  · exact roundHalfUp_mono (totalEst_mono m hR1 hR h1 h2 hvp hip hsp)

/-- C1: on a valid row (positive resolved size, 0 < θ < 180, known
element and facets), the pipeline returns a result whose four counts are
non-negative integers, each the round-half-up of its continuous
geometric estimate. -/
theorem c1_valid_row_counts (row : InputRow) (sz : SizeParam)
    (v si ss : ℚ) (m : Mode)
    (hsz : resolveSize row = .ok sz) (hval : 0 < sz.val)
    (h1 : 0 < row.thetaDeg) (h2 : row.thetaDeg < 180)
    (hv : lookup_bulk_density row.element = .ok v)
    (hi : lookup_areal_density row.element row.interfaceFacet = .ok si)
    (hs : lookup_areal_density row.element row.surfaceFacet = .ok ss) :
    ∃ res, processRow row m = .ok res
      ∧ res.perimeter = roundHalfUp (perimeterEst
          (capGeometry (sphereRadius sz row.thetaDeg) row.thetaDeg) v)
      ∧ res.interface = roundHalfUp (interfaceEst
          (capGeometry (sphereRadius sz row.thetaDeg) row.thetaDeg) si)
      ∧ res.surface = roundHalfUp (surfaceEst
          (capGeometry (sphereRadius sz row.thetaDeg) row.thetaDeg) ss)
      ∧ res.total = roundHalfUp (totalEst m
          (capGeometry (sphereRadius sz row.thetaDeg) row.thetaDeg) v si ss)
      ∧ 0 ≤ res.perimeter ∧ 0 ≤ res.interface ∧ 0 ≤ res.surface
      ∧ 0 ≤ res.total := by
  have hvp := lookup_bulk_pos _ _ hv
  have hip := lookup_areal_pos _ _ _ hi
  have hsp := lookup_areal_pos _ _ _ hs
  have hRs := sphereRadius_pos hval h1 h2
  rw [processRow_eq row sz m hsz hval h1 h2,
    count_eq _ _ _ _ m v si ss hv hi hs]
  refine ⟨_, rfl, rfl, rfl, rfl, rfl, ?_, ?_, ?_, ?_⟩
  · exact roundHalfUp_nonneg (perimeterEst_nonneg hRs.le h1 h2 hvp)
  · exact roundHalfUp_nonneg (interfaceEst_nonneg hip)
  · exact roundHalfUp_nonneg (surfaceEst_nonneg hsp)
  · exact roundHalfUp_nonneg (totalEst_nonneg m hRs.le hvp)

/-- Witness for C1 at a concrete valid row. -/
theorem c1_witness :
    ∃ res, processRow ⟨some 100, none, 90, "Ag", "", ""⟩ .volume = .ok res
      ∧ res.perimeter = roundHalfUp (perimeterEst
          (capGeometry (sphereRadius (.small 100) 90) 90) (1711 / 100))
      ∧ res.interface = roundHalfUp (interfaceEst
          (capGeometry (sphereRadius (.small 100) 90) 90) (724 / 100))
      ∧ res.surface = roundHalfUp (surfaceEst
          (capGeometry (sphereRadius (.small 100) 90) 90) (724 / 100))
      ∧ res.total = roundHalfUp (totalEst .volume
          (capGeometry (sphereRadius (.small 100) 90) 90) (1711 / 100)
          (724 / 100) (724 / 100))
      ∧ 0 ≤ res.perimeter ∧ 0 ≤ res.interface ∧ 0 ≤ res.surface
      ∧ 0 ≤ res.total :=
  c1_valid_row_counts ⟨some 100, none, 90, "Ag", "", ""⟩ (.small 100)
    (1711 / 100) (724 / 100) (724 / 100) .volume rfl
    (by norm_num [SizeParam.val]) (by norm_num) (by norm_num) rfl rfl rfl

/-- C3: with θ, element, facets and mode fixed, increasing the size
parameter (whichever column supplies it) does not decrease any of the
four counts. -/
theorem c3_monotone_in_size (tag : Bool) (theta : ℝ)
    (e fInt fSurf : String) (m : Mode) (s1 s2 : ℝ) (v si ss : ℚ)
    (hs1 : 0 < s1) (h12 : s1 ≤ s2) (h1 : 0 < theta) (h2 : theta < 180)
    (hv : lookup_bulk_density e = .ok v)
    (hi : lookup_areal_density e fInt = .ok si)
    (hs : lookup_areal_density e fSurf = .ok ss) :
    ∃ r1 r2, processRow (rowOf tag s1 theta e fInt fSurf) m = .ok r1
      ∧ processRow (rowOf tag s2 theta e fInt fSurf) m = .ok r2
      ∧ r1.perimeter ≤ r2.perimeter ∧ r1.interface ≤ r2.interface
      ∧ r1.surface ≤ r2.surface ∧ r1.total ≤ r2.total := by
  cases tag with
  | false =>
    have key := count_mono_core theta e fInt fSurf m s1 s2 v si ss hs1 h12
      h1 h2 hv hi hs
    rw [processRow_eq (rowOf false s1 theta e fInt fSurf) (.large s1) m
        rfl hs1 h1 h2,
      processRow_eq (rowOf false s2 theta e fInt fSurf) (.large s2) m
        rfl (lt_of_lt_of_le hs1 h12) h1 h2]
    exact key
  | true =>
    have hsin := sin_theta_pos h1 h2
    have hq1 : 0 < s1 / Real.sin (theta * Real.pi / 180) :=
      div_pos hs1 hsin
    have hq12 : s1 / Real.sin (theta * Real.pi / 180)
        ≤ s2 / Real.sin (theta * Real.pi / 180) := by gcongr
    have key := count_mono_core theta e fInt fSurf m _ _ v si ss hq1 hq12
      h1 h2 hv hi hs
    rw [processRow_eq (rowOf true s1 theta e fInt fSurf) (.small s1) m
        rfl hs1 h1 h2,
      processRow_eq (rowOf true s2 theta e fInt fSurf) (.small s2) m
        rfl (lt_of_lt_of_le hs1 h12) h1 h2]
    exact key

/-- Witness for C3 at concrete sizes 100 ≤ 200. -/
theorem c3_witness :
    ∃ r1 r2,
      processRow (rowOf true 100 90 "Ag" "" "") .volume = .ok r1
      ∧ processRow (rowOf true 200 90 "Ag" "" "") .volume = .ok r2
      ∧ r1.perimeter ≤ r2.perimeter ∧ r1.interface ≤ r2.interface
      ∧ r1.surface ≤ r2.surface ∧ r1.total ≤ r2.total :=
  c3_monotone_in_size true 90 "Ag" "" "" .volume 100 200 (1711 / 100)
    (724 / 100) (724 / 100) (by norm_num) (by norm_num) (by norm_num)
    (by norm_num) rfl rfl rfl

end NPAC
